import Mathlib

/-
Verification of the motion-control core of the bevy-tnua character controller.

Two parts of the repository are embedded:

* `SegmentedJumpInitialVelocityCalculator` (src/util.rs): a pure numeric
  solver over `f32`.  We model `f32` arithmetic by exact rational
  arithmetic (`ℚ`), which is the reading under which the specification's
  "exactly equals" statements are meaningful.  The single place where IEEE
  behaviour differs observably from field arithmetic on the reachable
  inputs is the division `transferred_energy / gravity` when
  `gravity = 0`: in `f32` a positive number divided by `0.0` is `+∞`, so
  the comparison `height < segment_height` succeeds and the "last segment"
  branch runs.  The embedding keeps that branch explicitly (Lean's `ℚ`
  division would instead return `0`), so the model follows the source on
  every input, `gravity = 0` included.

* `FallingThroughControlScheme::perform_and_check_if_still_crouching`
  (examples/common/falling_through.rs).  The Rust method mutates the
  helper and the proximity sensor through `&mut` references and returns a
  `bool`; the embedding passes state explicitly and returns the triple
  (returned bool, final helper, final sensor).

`TnuaSimpleFallThroughPlatformsHelper` belongs to the crate but its source
is not part of the excerpted core; its operations are modelled from the
specification (see the doc comments below).
-/

/-- State of the jump-height solver (src/util.rs).  Rust fields `height`
and `kinetic_energy`, both `f32`, modelled over `ℚ`. -/
structure SegmentedJumpInitialVelocityCalculator where
  height : ℚ
  kinetic_energy : ℚ
  deriving DecidableEq, Repr

/-- `SegmentedJumpInitialVelocityCalculator::new(total_height)`. -/
def SegmentedJumpInitialVelocityCalculator.new (total_height : ℚ) :
    SegmentedJumpInitialVelocityCalculator :=
  { height := total_height, kinetic_energy := 0 }

/-- `SegmentedJumpInitialVelocityCalculator::add_segment(gravity, velocity_threshold)`.

The `gravity = 0` test is not in the Rust text: it makes the IEEE
behaviour of `transferred_energy / 0.0 = +∞` (so `self.height < +∞` holds
and the "last segment" branch runs) explicit, since `ℚ` division by zero
would otherwise disagree with `f32` there.  Its result is literally the
"last segment" branch's result. -/
def SegmentedJumpInitialVelocityCalculator.add_segment
    (self : SegmentedJumpInitialVelocityCalculator)
    (gravity velocity_threshold : ℚ) : SegmentedJumpInitialVelocityCalculator :=
  if self.height ≤ 0 then
    -- No more height to jump
    self
  else
    let kinetic_energy_at_velocity_threshold := (1 / 2) * velocity_threshold ^ 2
    let transferred_energy :=
      kinetic_energy_at_velocity_threshold - self.kinetic_energy
    if transferred_energy ≤ 0 then
      -- Already faster than that velocity
      self
    else if gravity = 0 then
      { height := 0, kinetic_energy := self.kinetic_energy + self.height * gravity }
    else
      let segment_height := transferred_energy / gravity
      if self.height < segment_height then
        -- This segment will be the last
        { height := 0, kinetic_energy := self.kinetic_energy + self.height * gravity }
      else
        { height := self.height - segment_height,
          kinetic_energy := self.kinetic_energy + transferred_energy }

/-- Chaining `add_segment` over an ordered list of `(gravity,
velocity_threshold)` pairs, as the Rust `&mut Self` return is used for. -/
def SegmentedJumpInitialVelocityCalculator.add_segments
    (self : SegmentedJumpInitialVelocityCalculator)
    (segments : List (ℚ × ℚ)) : SegmentedJumpInitialVelocityCalculator :=
  segments.foldl (fun c p => c.add_segment p.1 p.2) self

/-- A call `add_segment(gravity, velocity_threshold)` on state `self` is
height-limited when it takes the "this segment will be the last" branch:
the height guard and the transferred-energy guard both pass and
`self.height < segment_height` (with `gravity = 0` giving
`segment_height = +∞` in `f32`). -/
def SegmentedJumpInitialVelocityCalculator.height_limited
    (self : SegmentedJumpInitialVelocityCalculator)
    (gravity velocity_threshold : ℚ) : Prop :=
  0 < self.height ∧
  0 < (1 / 2) * velocity_threshold ^ 2 - self.kinetic_energy ∧
  (gravity = 0 ∨
    self.height < ((1 / 2) * velocity_threshold ^ 2 - self.kinetic_energy) / gravity)

instance (self : SegmentedJumpInitialVelocityCalculator) (g t : ℚ) :
    Decidable (self.height_limited g t) := by
  unfold SegmentedJumpInitialVelocityCalculator.height_limited
  infer_instance

/-- A call `add_segment(gravity, velocity_threshold)` on state `self`
completes fully when it takes the final branch: both guards pass and the
whole `segment_height` fits into the remaining height, so the full
`transferred_energy` is added. -/
def SegmentedJumpInitialVelocityCalculator.completes_fully
    (self : SegmentedJumpInitialVelocityCalculator)
    (gravity velocity_threshold : ℚ) : Prop :=
  0 < self.height ∧
  0 < (1 / 2) * velocity_threshold ^ 2 - self.kinetic_energy ∧
  ((1 / 2) * velocity_threshold ^ 2 - self.kinetic_energy) / gravity ≤ self.height

instance (self : SegmentedJumpInitialVelocityCalculator) (g t : ℚ) :
    Decidable (self.completes_fully g t) := by
  unfold SegmentedJumpInitialVelocityCalculator.completes_fully
  infer_instance

open SegmentedJumpInitialVelocityCalculator

/-- A hit record as seen by this core: the spec's `Hit` carries a
normalized proximity measure, an opaque identifying reference to the
contacted body, and auxiliary contact geometry not consumed here. -/
structure Hit where
  entity : Nat
  proximity : ℚ
  normal : ℚ × ℚ × ℚ
  deriving DecidableEq, Repr

/-- `TnuaProximitySensor`: distance and relative velocity of the nearest
solid surface, plus the overridable selected-hit `output`.  Only `output`
is touched by the embedded code. -/
structure TnuaProximitySensor where
  distance : ℚ
  velocity : ℚ × ℚ × ℚ
  output : Option Hit
  deriving DecidableEq, Repr

/-- `TnuaGhostSensor`: ordered (nearest-first) hits on non-solid
surfaces; the Rust type is a newtype over a vector, read through
`ghost_sensor.0.first()`. -/
structure TnuaGhostSensor where
  hits : List Hit
  deriving DecidableEq, Repr

/-- Modelled from the spec: the helper's internal state distinguishes
"not falling", "falling through exactly one platform", and "continuously
falling". -/
inductive FallThroughProgress where
  | NotFalling
  | FallingThroughOne
  | FallingThroughContinuous
  deriving DecidableEq, Repr

/-- Modelled from the spec: `TnuaSimpleFallThroughPlatformsHelper`, the
persistent per-entity fall-through state machine.  Its source is not part
of the excerpted core; only the state named by the spec is kept. -/
structure TnuaSimpleFallThroughPlatformsHelper where
  progress : FallThroughProgress
  deriving DecidableEq, Repr

/-- Modelled from the spec: a ghost platform is available to fall through
when the nearest ghost hit is at least `min_proximity` away. -/
def ghost_platform_available (ghost_sensor : TnuaGhostSensor)
    (min_proximity : ℚ) : Option Hit :=
  match ghost_sensor.hits.head? with
  | some hit => if min_proximity ≤ hit.proximity then some hit else none
  | none => none

/-- Modelled from the spec: `dont_fall` — "the helper is told to stop
falling", i.e. the machine transitions back to its idle (not-falling)
state; returns the updated helper and sensor. -/
def TnuaSimpleFallThroughPlatformsHelper.dont_fall
    (_self : TnuaSimpleFallThroughPlatformsHelper)
    (proximity_sensor : TnuaProximitySensor) :
    TnuaSimpleFallThroughPlatformsHelper × TnuaProximitySensor :=
  ({ progress := .NotFalling }, proximity_sensor)

/-- Modelled from the spec: `try_falling_one_step_at_a_time` — consumes
the crouch-just-pressed edge to permit exactly one platform's worth of
fall-through per press; holding crouch continuously does not start a new
fall.  Returns (fall in progress, helper, sensor); falling clears the
proximity sensor's selected output so the platform is not treated as
ground, and the machine returns to idle when no ghost platform is
available. -/
def TnuaSimpleFallThroughPlatformsHelper.try_falling_one_step_at_a_time
    (self : TnuaSimpleFallThroughPlatformsHelper)
    (proximity_sensor : TnuaProximitySensor) (ghost_sensor : TnuaGhostSensor)
    (min_proximity : ℚ) (crouch_just_pressed : Bool) :
    Bool × TnuaSimpleFallThroughPlatformsHelper × TnuaProximitySensor :=
  match ghost_platform_available ghost_sensor min_proximity with
  | none => (false, { progress := .NotFalling }, proximity_sensor)
  | some _ =>
    match self.progress with
    | .NotFalling =>
      if crouch_just_pressed then
        (true, { progress := .FallingThroughOne },
          { proximity_sensor with output := none })
      else
        (false, self, proximity_sensor)
    | _ =>
      (true, { progress := .FallingThroughOne },
        { proximity_sensor with output := none })

/-- Modelled from the spec: `try_falling` — once started, continues
falling through consecutive platforms every frame, with no single-step
limiting; returns to idle when no ghost platform is available. -/
def TnuaSimpleFallThroughPlatformsHelper.try_falling
    (_self : TnuaSimpleFallThroughPlatformsHelper)
    (proximity_sensor : TnuaProximitySensor) (ghost_sensor : TnuaGhostSensor)
    (min_proximity : ℚ) :
    Bool × TnuaSimpleFallThroughPlatformsHelper × TnuaProximitySensor :=
  match ghost_platform_available ghost_sensor min_proximity with
  | none => (false, { progress := .NotFalling }, proximity_sensor)
  | some _ =>
    (true, { progress := .FallingThroughContinuous },
      { proximity_sensor with output := none })

/-- The three fall-through policies (examples/common/falling_through.rs). -/
inductive FallingThroughControlScheme where
  | WithoutHelper
  | SingleFall
  | KeepFalling
  deriving DecidableEq, Repr

/-- `FallingThroughControlScheme::perform_and_check_if_still_crouching`.
The Rust method mutates `fall_through_helper` and `proximity_sensor`
through `&mut` and returns a `bool`; here the final helper and sensor are
returned alongside the bool. -/
def FallingThroughControlScheme.perform_and_check_if_still_crouching
    (self : FallingThroughControlScheme)
    (crouch crouch_just_pressed : Bool)
    (fall_through_helper : TnuaSimpleFallThroughPlatformsHelper)
    (proximity_sensor : TnuaProximitySensor)
    (ghost_sensor : TnuaGhostSensor)
    (min_proximity : ℚ) :
    Bool × TnuaSimpleFallThroughPlatformsHelper × TnuaProximitySensor :=
  match self with
  | .WithoutHelper =>
    match ghost_sensor.hits.head? with
    | some ghost_platform =>
      if 1 ≤ ghost_platform.proximity then
        if crouch then
          (false, fall_through_helper, proximity_sensor)
        else
          (crouch, fall_through_helper,
            { proximity_sensor with output := some ghost_platform })
      else
        (crouch, fall_through_helper, proximity_sensor)
    | none => (crouch, fall_through_helper, proximity_sensor)
  | .SingleFall =>
    if crouch then
      let r := fall_through_helper.try_falling_one_step_at_a_time
        proximity_sensor ghost_sensor min_proximity crouch_just_pressed
      (!r.1, r.2.1, r.2.2)
    else
      let r := fall_through_helper.dont_fall proximity_sensor
      (false, r.1, r.2)
  | .KeepFalling =>
    if crouch then
      let r := fall_through_helper.try_falling
        proximity_sensor ghost_sensor min_proximity
      (!r.1, r.2.1, r.2.2)
    else
      let r := fall_through_helper.dont_fall proximity_sensor
      (false, r.1, r.2)

/-! Branch lemmas for `add_segment`, one per control path of the Rust
method. -/

lemma add_segment_of_height_le_zero (s : SegmentedJumpInitialVelocityCalculator)
    (g t : ℚ) (h : s.height ≤ 0) : s.add_segment g t = s := by
  simp [add_segment, h]

lemma add_segment_of_transfer_nonpos (s : SegmentedJumpInitialVelocityCalculator)
    (g t : ℚ) (hte : (1 / 2) * t ^ 2 - s.kinetic_energy ≤ 0) :
    s.add_segment g t = s := by
  by_cases h : s.height ≤ 0
  · exact add_segment_of_height_le_zero s g t h
  · simp only [add_segment]
    split_ifs
    rfl

lemma add_segment_last (s : SegmentedJumpInitialVelocityCalculator) (g t : ℚ)
    (hh : 0 < s.height) (hte : 0 < (1 / 2) * t ^ 2 - s.kinetic_energy)
    (hlast : g = 0 ∨ s.height < ((1 / 2) * t ^ 2 - s.kinetic_energy) / g) :
    s.add_segment g t =
      { height := 0, kinetic_energy := s.kinetic_energy + s.height * g } := by
  simp only [add_segment]
  split_ifs with h1 h2 h3 h4
  · exact absurd h1 (not_le.mpr hh)
  · exact absurd h2 (not_le.mpr hte)
  · rfl
  · rfl
  · rcases hlast with h | h
    · exact absurd h h3
    · exact absurd h h4

lemma add_segment_full (s : SegmentedJumpInitialVelocityCalculator) (g t : ℚ)
    (hh : 0 < s.height) (hte : 0 < (1 / 2) * t ^ 2 - s.kinetic_energy)
    (hg : g ≠ 0)
    (hfit : ((1 / 2) * t ^ 2 - s.kinetic_energy) / g ≤ s.height) :
    s.add_segment g t =
      { height := s.height - ((1 / 2) * t ^ 2 - s.kinetic_energy) / g,
        kinetic_energy :=
          s.kinetic_energy + ((1 / 2) * t ^ 2 - s.kinetic_energy) } := by
  simp only [add_segment]
  split_ifs with h1 h2 h3
  · exact absurd h1 (not_le.mpr hh)
  · exact absurd h2 (not_le.mpr hte)
  · exact absurd h3 (not_lt.mpr hfit)
  · rfl

lemma add_segments_of_height_eq_zero (s : SegmentedJumpInitialVelocityCalculator)
    (hs : s.height = 0) (segs : List (ℚ × ℚ)) : s.add_segments segs = s := by
  induction segs with
  | nil => rfl
  | cons p rest ih =>
    have hstep : s.add_segment p.1 p.2 = s :=
      add_segment_of_height_le_zero s p.1 p.2 (le_of_eq hs)
    calc s.add_segments (p :: rest)
        = (s.add_segment p.1 p.2).add_segments rest := rfl
      _ = s.add_segments rest := by rw [hstep]
      _ = s := ih

lemma add_segment_invariant_step (s : SegmentedJumpInitialVelocityCalculator)
    (g t : ℚ) (h1 : 0 ≤ s.height) (h2 : 0 ≤ s.kinetic_energy) :
    0 ≤ (s.add_segment g t).height ∧ 0 ≤ (s.add_segment g t).kinetic_energy := by
  simp only [add_segment]
  split_ifs with hle hte hg0 hlt
  · exact ⟨h1, h2⟩
  · exact ⟨h1, h2⟩
  · subst hg0
    exact ⟨le_refl 0, by simpa using h2⟩
  · have hh : 0 < s.height := not_le.mp hle
    have hte' : 0 < (1 / 2) * t ^ 2 - s.kinetic_energy := not_le.mp hte
    have hg : 0 < g := by
      rcases lt_trichotomy g 0 with hneg | hz | hpos
      · have : ((1 / 2) * t ^ 2 - s.kinetic_energy) / g < 0 :=
          div_neg_of_pos_of_neg hte' hneg
        linarith
      · exact absurd hz hg0
      · exact hpos
    exact ⟨le_refl 0, add_nonneg h2 (mul_nonneg h1 hg.le)⟩
  · have hte' : 0 < (1 / 2) * t ^ 2 - s.kinetic_energy := not_le.mp hte
    exact ⟨sub_nonneg.mpr (not_lt.mp hlt), add_nonneg h2 hte'.le⟩

lemma add_segments_invariant (segs : List (ℚ × ℚ)) :
    ∀ s : SegmentedJumpInitialVelocityCalculator, 0 ≤ s.height →
      0 ≤ s.kinetic_energy →
      0 ≤ (s.add_segments segs).height ∧ 0 ≤ (s.add_segments segs).kinetic_energy := by
  induction segs with
  | nil => exact fun s h1 h2 => ⟨h1, h2⟩
  | cons p rest ih =>
    intro s h1 h2
    have hstep := add_segment_invariant_step s p.1 p.2 h1 h2
    exact ih (s.add_segment p.1 p.2) hstep.1 hstep.2

/-! Claim theorems. -/

/-- C1: for `total_height ≥ 0`, a calculator from `new(total_height)` and a
single `add_segment(gravity, velocity_threshold)` call with `gravity > 0`
and `0.5 * velocity_threshold² ≥ gravity * total_height`, the final
`kinetic_energy` is exactly `gravity * total_height`, and every subsequent
`add_segment` call (any arguments, any number of calls) leaves the state
unchanged. -/
theorem single_segment_reaches_apex (H g t : ℚ) (hH : 0 ≤ H) (hg : 0 < g)
    (hle : g * H ≤ (1 / 2) * t ^ 2) :
    ((new H).add_segment g t).kinetic_energy = g * H ∧
    ∀ segs : List (ℚ × ℚ),
      ((new H).add_segment g t).add_segments segs = (new H).add_segment g t := by
  have key : ((new H).add_segment g t).kinetic_energy = g * H ∧
      ((new H).add_segment g t).height = 0 := by
    rcases eq_or_lt_of_le hH with hH0 | hHpos
    · have hnoop : (new H).add_segment g t = new H :=
        add_segment_of_height_le_zero _ _ _ (by simp [new, ← hH0])
      rw [hnoop]
      simp [new, ← hH0]
    · have hh : 0 < (new H).height := by simpa [new] using hHpos
      have hte : 0 < (1 / 2) * t ^ 2 - (new H).kinetic_energy := by
        have : 0 < g * H := mul_pos hg hHpos
        simp only [new]
        linarith
      by_cases hcase :
          (new H).height < ((1 / 2) * t ^ 2 - (new H).kinetic_energy) / g
      · rw [add_segment_last (new H) g t hh hte (Or.inr hcase)]
        simp [new, mul_comm]
      · have hfit : ((1 / 2) * t ^ 2 - (new H).kinetic_energy) / g ≤ (new H).height :=
          not_lt.mp hcase
        have heq : ((1 / 2) * t ^ 2 - (new H).kinetic_energy) / g = (new H).height := by
          have hge : (new H).height ≤ ((1 / 2) * t ^ 2 - (new H).kinetic_energy) / g := by
            rw [le_div_iff₀ hg]
            simp only [new]
            linarith [mul_comm H g, mul_comm g H]
          exact le_antisymm hfit hge
        rw [add_segment_full (new H) g t hh hte hg.ne' hfit]
        have hte_eq : (1 / 2) * t ^ 2 - (new H).kinetic_energy = (new H).height * g :=
          (div_eq_iff hg.ne').mp heq
        constructor
        · simp only [new] at hte_eq ⊢
          linear_combination hte_eq
        · simp only [heq]
          ring
  exact ⟨key.1, fun segs => add_segments_of_height_eq_zero _ key.2 segs⟩

/-- C2 (counterexample to the claim as stated): with `total_height = 10`,
`g1 = g2 = 1` and thresholds `t1 = -3 < 1 = t2`, neither `add_segment`
call is height-limited and the consumed heights sum to at most
`total_height`, yet the final `kinetic_energy` is `9/2`, not
`0.5 * t2² = 1/2`: the second call's transferred energy is negative (the
first threshold's kinetic energy exceeds the second's), so it no-ops. -/
theorem two_segments_claim_counterexample :
    0 < (1 : ℚ) ∧ (-3 : ℚ) < 1 ∧
    ¬ (new 10).height_limited 1 (-3) ∧
    ¬ ((new 10).add_segment 1 (-3)).height_limited 1 1 ∧
    (new (10 : ℚ)).height
        - (((new 10).add_segment 1 (-3)).add_segment 1 1).height ≤ 10 ∧
    ¬ (((new 10).add_segment 1 (-3)).add_segment 1 1).kinetic_energy
        = (1 / 2) * 1 ^ 2 := by
  norm_num [new, add_segment, height_limited]

/-- C2 (amended): for `g1 > 0`, `g2 > 0` and `t1 < t2`, if both
`add_segment` calls take the full-transfer branch — positive transferred
energy and `segment_height` not exceeding the remaining height, so
neither call no-ops and neither is height-limited — then the final
`kinetic_energy` is exactly `0.5 * t2²`. -/
theorem two_full_segments_reach_second_threshold (H g1 t1 g2 t2 : ℚ)
    (hg1 : 0 < g1) (hg2 : 0 < g2) (ht : t1 < t2)
    (h1 : (new H).completes_fully g1 t1)
    (h2 : ((new H).add_segment g1 t1).completes_fully g2 t2) :
    (((new H).add_segment g1 t1).add_segment g2 t2).kinetic_energy
      = (1 / 2) * t2 ^ 2 := by
  obtain ⟨hh2, hte2, hfit2⟩ := h2
  rw [add_segment_full _ g2 t2 hh2 hte2 hg2.ne' hfit2]
  ring

/-- C3: with `total_height ≥ 0`, after any sequence of `add_segment`
calls (arbitrary gravity and threshold arguments) both `height ≥ 0` and
`kinetic_energy ≥ 0` hold, and any state with `height = 0` is left
unchanged by every further `add_segment` call. -/
theorem calculator_invariant (H : ℚ) (hH : 0 ≤ H) :
    (∀ segs : List (ℚ × ℚ),
      0 ≤ ((new H).add_segments segs).height ∧
      0 ≤ ((new H).add_segments segs).kinetic_energy) ∧
    (∀ (s : SegmentedJumpInitialVelocityCalculator) (g t : ℚ),
      s.height = 0 → s.add_segment g t = s) := by
  constructor
  · intro segs
    exact add_segments_invariant segs (new H) (by simpa [new] using hH)
      (by simp [new])
  · intro s g t hs
    exact add_segment_of_height_le_zero s g t (le_of_eq hs)

/-- C4: on any state with `height > 0`, an `add_segment` call whose
transferred energy `0.5 * t² - kinetic_energy` is zero or negative leaves
the state unchanged, and repeating the call is idempotent. -/
theorem nonpositive_transfer_is_noop
    (s : SegmentedJumpInitialVelocityCalculator) (g t : ℚ)
    (hh : 0 < s.height)
    (hte : (1 / 2) * t ^ 2 - s.kinetic_energy ≤ 0) :
    s.add_segment g t = s ∧
    (s.add_segment g t).add_segment g t = s.add_segment g t := by
  have h1 : s.add_segment g t = s := add_segment_of_transfer_nonpos s g t hte
  exact ⟨h1, by rw [h1, h1]⟩

/-- C6: every `add_segment` call with `gravity > 0` leaves `height`
no larger and `kinetic_energy` no smaller than before the call, so along
any chain of such calls `height` is monotonically non-increasing and
`kinetic_energy` monotonically non-decreasing. -/
theorem add_segment_monotone (s : SegmentedJumpInitialVelocityCalculator)
    (g t : ℚ) (hg : 0 < g) :
    (s.add_segment g t).height ≤ s.height ∧
    s.kinetic_energy ≤ (s.add_segment g t).kinetic_energy := by
  simp only [add_segment]
  split_ifs with h1 h2 h3 h4
  · exact ⟨le_refl _, le_refl _⟩
  · exact ⟨le_refl _, le_refl _⟩
  · exact absurd h3 hg.ne'
  · have hh : 0 < s.height := not_le.mp h1
    exact ⟨hh.le, le_add_of_nonneg_right (mul_nonneg hh.le hg.le)⟩
  · have hte : 0 < (1 / 2) * t ^ 2 - s.kinetic_energy := not_le.mp h2
    exact ⟨sub_le_self _ (div_nonneg hte.le hg.le),
      le_add_of_nonneg_right hte.le⟩

/-- C5: with a first ghost hit whose `proximity ≥ 1.0`, the
`WithoutHelper` scheme returns `false` and leaves the proximity sensor
untouched when `crouch = true`, and returns `false` (the crouch argument)
while overriding the sensor's `output` with that first ghost hit when
`crouch = false`. -/
theorem without_helper_hit_in_range (jp : Bool)
    (hl : TnuaSimpleFallThroughPlatformsHelper) (ps : TnuaProximitySensor)
    (gs : TnuaGhostSensor) (mp : ℚ) (hit : Hit)
    (hfst : gs.hits.head? = some hit) (hprox : 1 ≤ hit.proximity) :
    FallingThroughControlScheme.WithoutHelper.perform_and_check_if_still_crouching
        true jp hl ps gs mp = (false, hl, ps) ∧
    FallingThroughControlScheme.WithoutHelper.perform_and_check_if_still_crouching
        false jp hl ps gs mp
      = (false, hl, { ps with output := some hit }) := by
  constructor <;>
    simp [FallingThroughControlScheme.perform_and_check_if_still_crouching,
      hfst, hprox]

/-- C7: for both `SingleFall` and `KeepFalling`, when `crouch = false` the
call goes through the helper's `dont_fall` operation and returns `false`,
for every `crouch_just_pressed`, helper state, and sensor contents. -/
theorem crouch_release_stops_falling (jp : Bool)
    (hl : TnuaSimpleFallThroughPlatformsHelper) (ps : TnuaProximitySensor)
    (gs : TnuaGhostSensor) (mp : ℚ) :
    FallingThroughControlScheme.SingleFall.perform_and_check_if_still_crouching
        false jp hl ps gs mp
      = (false, (hl.dont_fall ps).1, (hl.dont_fall ps).2) ∧
    FallingThroughControlScheme.KeepFalling.perform_and_check_if_still_crouching
        false jp hl ps gs mp
      = (false, (hl.dont_fall ps).1, (hl.dont_fall ps).2) := by
  exact ⟨rfl, rfl⟩

/-- C8: with an empty ghost sensor, the `WithoutHelper` scheme returns
the crouch argument unchanged and does not modify the proximity sensor,
whatever the other arguments are. -/
theorem without_helper_empty_ghost (crouch jp : Bool)
    (hl : TnuaSimpleFallThroughPlatformsHelper) (ps : TnuaProximitySensor)
    (gs : TnuaGhostSensor) (mp : ℚ) (hgs : gs.hits = []) :
    FallingThroughControlScheme.WithoutHelper.perform_and_check_if_still_crouching
        crouch jp hl ps gs mp = (crouch, hl, ps) := by
  simp [FallingThroughControlScheme.perform_and_check_if_still_crouching, hgs]

/-- C9: every embedded operation — `new`, `add_segment`,
`kinetic_energy`, and `perform_and_check_if_still_crouching` for all
three scheme variants — yields a result on every well-typed input; in
particular `add_segment` with `gravity = 0` follows the `f32` semantics
of the guardless division (`transferred_energy / 0.0 = +∞`, taking the
last-segment branch) rather than failing. -/
theorem core_operations_total :
    (∀ H : ℚ, ∃ c, new H = c) ∧
    (∀ (s : SegmentedJumpInitialVelocityCalculator) (g t : ℚ),
      ∃ c, s.add_segment g t = c) ∧
    (∀ s : SegmentedJumpInitialVelocityCalculator, ∃ k, s.kinetic_energy = k) ∧
    (∀ (scheme : FallingThroughControlScheme) (crouch jp : Bool)
        (hl : TnuaSimpleFallThroughPlatformsHelper) (ps : TnuaProximitySensor)
        (gs : TnuaGhostSensor) (mp : ℚ),
      ∃ r, scheme.perform_and_check_if_still_crouching crouch jp hl ps gs mp = r) ∧
    (∀ (s : SegmentedJumpInitialVelocityCalculator) (t : ℚ),
      s.add_segment 0 t =
        if s.height ≤ 0 then s
        else if (1 / 2) * t ^ 2 - s.kinetic_energy ≤ 0 then s
        else { height := 0, kinetic_energy := s.kinetic_energy + s.height * 0 }) := by
  refine ⟨fun H => ⟨_, rfl⟩, fun s g t => ⟨_, rfl⟩, fun s => ⟨_, rfl⟩,
    fun scheme crouch jp hl ps gs mp => ⟨_, rfl⟩, ?_⟩
  intro s t
  simp only [add_segment]
  split_ifs <;> rfl

/-- C10: the `WithoutHelper` scheme depends only on the crouch argument,
the first ghost hit, and the sensor's prior selected output: two calls
agreeing on those (with `crouch_just_pressed`, `min_proximity`, the
helper state, the rest of the sensor, and all ghost hits after the first
arbitrary) return the same boolean and leave equal sensor outputs. -/
theorem without_helper_depends_only_on_crouch_and_first_hit
    (crouch jp1 jp2 : Bool)
    (hl1 hl2 : TnuaSimpleFallThroughPlatformsHelper)
    (ps1 ps2 : TnuaProximitySensor) (gs1 gs2 : TnuaGhostSensor)
    (mp1 mp2 : ℚ)
    (hhead : gs1.hits.head? = gs2.hits.head?)
    (hout : ps1.output = ps2.output) :
    (FallingThroughControlScheme.WithoutHelper.perform_and_check_if_still_crouching
        crouch jp1 hl1 ps1 gs1 mp1).1
      = (FallingThroughControlScheme.WithoutHelper.perform_and_check_if_still_crouching
          crouch jp2 hl2 ps2 gs2 mp2).1 ∧
    (FallingThroughControlScheme.WithoutHelper.perform_and_check_if_still_crouching
        crouch jp1 hl1 ps1 gs1 mp1).2.2.output
      = (FallingThroughControlScheme.WithoutHelper.perform_and_check_if_still_crouching
          crouch jp2 hl2 ps2 gs2 mp2).2.2.output := by
  rcases hh : gs1.hits.head? with _ | hit
  · have hh2 : gs2.hits.head? = none := by rw [← hhead, hh]
    simp [FallingThroughControlScheme.perform_and_check_if_still_crouching,
      hh, hh2, hout]
  · have hh2 : gs2.hits.head? = some hit := by rw [← hhead, hh]
    by_cases hp : 1 ≤ hit.proximity
    · cases crouch
      · simp [FallingThroughControlScheme.perform_and_check_if_still_crouching,
          hh, hh2, hp]
      · simp [FallingThroughControlScheme.perform_and_check_if_still_crouching,
          hh, hh2, hp, hout]
    · simp [FallingThroughControlScheme.perform_and_check_if_still_crouching,
        hh, hh2, hp, hout]

/-! Witnesses: each claim theorem with hypotheses instantiated at a
concrete input. -/

/-- Witness for C1 at `total_height = 1`, `gravity = 1`,
`velocity_threshold = 2`. -/
theorem single_segment_reaches_apex_witness :
    0 ≤ (1 : ℚ) ∧ 0 < (1 : ℚ) ∧ (1 : ℚ) * 1 ≤ (1 / 2) * 2 ^ 2 ∧
    (((new 1).add_segment 1 2).kinetic_energy = 1 * 1 ∧
      ∀ segs : List (ℚ × ℚ),
        ((new 1).add_segment 1 2).add_segments segs = (new 1).add_segment 1 2) :=
  ⟨by norm_num, by norm_num, by norm_num,
    single_segment_reaches_apex 1 1 2 (by norm_num) (by norm_num) (by norm_num)⟩

/-- Witness for C2 (amended) at `total_height = 10`, segments
`(1, 1)` then `(1, 2)`. -/
theorem two_full_segments_witness :
    0 < (1 : ℚ) ∧ (1 : ℚ) < 2 ∧
    (new (10 : ℚ)).completes_fully 1 1 ∧
    ((new 10).add_segment 1 1).completes_fully 1 2 ∧
    (((new 10).add_segment 1 1).add_segment 1 2).kinetic_energy
      = (1 / 2) * 2 ^ 2 :=
  ⟨by norm_num, by norm_num,
    by norm_num [new, completes_fully],
    by norm_num [new, add_segment, completes_fully],
    two_full_segments_reach_second_threshold 10 1 1 1 2 (by norm_num)
      (by norm_num) (by norm_num)
      (by norm_num [new, completes_fully])
      (by norm_num [new, add_segment, completes_fully])⟩

/-- Witness for C3 at `total_height = 3`. -/
theorem calculator_invariant_witness :
    0 ≤ (3 : ℚ) ∧
    ((∀ segs : List (ℚ × ℚ),
        0 ≤ ((new 3).add_segments segs).height ∧
        0 ≤ ((new 3).add_segments segs).kinetic_energy) ∧
      (∀ (s : SegmentedJumpInitialVelocityCalculator) (g t : ℚ),
        s.height = 0 → s.add_segment g t = s)) :=
  ⟨by norm_num, calculator_invariant 3 (by norm_num)⟩

/-- Witness for C4 at state `⟨2, 5⟩` and segment `(1, 1)`. -/
theorem nonpositive_transfer_is_noop_witness :
    0 < ({ height := 2, kinetic_energy := 5 } :
        SegmentedJumpInitialVelocityCalculator).height ∧
    (1 / 2) * (1 : ℚ) ^ 2
        - ({ height := 2, kinetic_energy := 5 } :
            SegmentedJumpInitialVelocityCalculator).kinetic_energy ≤ 0 ∧
    (({ height := 2, kinetic_energy := 5 } :
          SegmentedJumpInitialVelocityCalculator).add_segment 1 1
        = { height := 2, kinetic_energy := 5 } ∧
      (({ height := 2, kinetic_energy := 5 } :
            SegmentedJumpInitialVelocityCalculator).add_segment 1 1).add_segment 1 1
        = ({ height := 2, kinetic_energy := 5 } :
            SegmentedJumpInitialVelocityCalculator).add_segment 1 1) :=
  ⟨by norm_num, by norm_num,
    nonpositive_transfer_is_noop { height := 2, kinetic_energy := 5 } 1 1
      (by norm_num) (by norm_num)⟩

/-- Witness for C5: one ghost hit at proximity 1. -/
theorem without_helper_hit_in_range_witness :
    ({ hits := [{ entity := 0, proximity := 1, normal := (0, 0, 0) }] } :
        TnuaGhostSensor).hits.head?
      = some { entity := 0, proximity := 1, normal := (0, 0, 0) } ∧
    (1 : ℚ) ≤ ({ entity := 0, proximity := 1, normal := (0, 0, 0) } : Hit).proximity ∧
    (FallingThroughControlScheme.WithoutHelper.perform_and_check_if_still_crouching
        true false { progress := .NotFalling }
        { distance := 2, velocity := (0, 0, 0), output := none }
        { hits := [{ entity := 0, proximity := 1, normal := (0, 0, 0) }] } 1
      = (false, { progress := .NotFalling },
          { distance := 2, velocity := (0, 0, 0), output := none }) ∧
      FallingThroughControlScheme.WithoutHelper.perform_and_check_if_still_crouching
        false false { progress := .NotFalling }
        { distance := 2, velocity := (0, 0, 0), output := none }
        { hits := [{ entity := 0, proximity := 1, normal := (0, 0, 0) }] } 1
      = (false, { progress := .NotFalling },
          { distance := 2, velocity := (0, 0, 0),
            output := some { entity := 0, proximity := 1, normal := (0, 0, 0) } })) :=
  ⟨rfl, by norm_num,
    without_helper_hit_in_range false { progress := .NotFalling }
      { distance := 2, velocity := (0, 0, 0), output := none }
      { hits := [{ entity := 0, proximity := 1, normal := (0, 0, 0) }] } 1
      { entity := 0, proximity := 1, normal := (0, 0, 0) } rfl (by norm_num)⟩

/-- Witness for C6 at state `⟨4, 0⟩` and segment `(1, 2)`. -/
theorem add_segment_monotone_witness :
    0 < (1 : ℚ) ∧
    ((({ height := 4, kinetic_energy := 0 } :
          SegmentedJumpInitialVelocityCalculator).add_segment 1 2).height
        ≤ ({ height := 4, kinetic_energy := 0 } :
            SegmentedJumpInitialVelocityCalculator).height ∧
      ({ height := 4, kinetic_energy := 0 } :
          SegmentedJumpInitialVelocityCalculator).kinetic_energy
        ≤ (({ height := 4, kinetic_energy := 0 } :
            SegmentedJumpInitialVelocityCalculator).add_segment 1 2).kinetic_energy) :=
  ⟨by norm_num,
    add_segment_monotone { height := 4, kinetic_energy := 0 } 1 2 (by norm_num)⟩

/-- Witness for C8: empty ghost sensor, crouch held. -/
theorem without_helper_empty_ghost_witness :
    ({ hits := [] } : TnuaGhostSensor).hits = [] ∧
    FallingThroughControlScheme.WithoutHelper.perform_and_check_if_still_crouching
        true true { progress := .FallingThroughOne }
        { distance := 5, velocity := (1, 0, 0), output := none } { hits := [] } 3
      = (true, { progress := .FallingThroughOne },
          { distance := 5, velocity := (1, 0, 0), output := none }) :=
  ⟨rfl,
    without_helper_empty_ghost true true { progress := .FallingThroughOne }
      { distance := 5, velocity := (1, 0, 0), output := none } { hits := [] } 3 rfl⟩

/-- Witness for C10: same crouch, same first ghost hit and same prior
output; different just-pressed flags, helper states, sensor distances,
ghost tails, and proximity thresholds. -/
theorem without_helper_depends_only_witness :
    ({ hits := [{ entity := 1, proximity := 2, normal := (0, 0, 1) }] } :
        TnuaGhostSensor).hits.head?
      = ({ hits := [{ entity := 1, proximity := 2, normal := (0, 0, 1) },
            { entity := 2, proximity := 0, normal := (0, 0, 0) }] } :
          TnuaGhostSensor).hits.head? ∧
    ({ distance := 2, velocity := (0, 0, 0), output := none } :
        TnuaProximitySensor).output
      = ({ distance := 9, velocity := (1, 1, 1), output := none } :
          TnuaProximitySensor).output ∧
    ((FallingThroughControlScheme.WithoutHelper.perform_and_check_if_still_crouching
        true true { progress := .NotFalling }
        { distance := 2, velocity := (0, 0, 0), output := none }
        { hits := [{ entity := 1, proximity := 2, normal := (0, 0, 1) }] } 1).1
      = (FallingThroughControlScheme.WithoutHelper.perform_and_check_if_still_crouching
          true false { progress := .FallingThroughContinuous }
          { distance := 9, velocity := (1, 1, 1), output := none }
          { hits := [{ entity := 1, proximity := 2, normal := (0, 0, 1) },
            { entity := 2, proximity := 0, normal := (0, 0, 0) }] } 7).1 ∧
      (FallingThroughControlScheme.WithoutHelper.perform_and_check_if_still_crouching
        true true { progress := .NotFalling }
        { distance := 2, velocity := (0, 0, 0), output := none }
        { hits := [{ entity := 1, proximity := 2, normal := (0, 0, 1) }] } 1).2.2.output
      = (FallingThroughControlScheme.WithoutHelper.perform_and_check_if_still_crouching
          true false { progress := .FallingThroughContinuous }
          { distance := 9, velocity := (1, 1, 1), output := none }
          { hits := [{ entity := 1, proximity := 2, normal := (0, 0, 1) },
            { entity := 2, proximity := 0, normal := (0, 0, 0) }] } 7).2.2.output) :=
  ⟨rfl, rfl,
    without_helper_depends_only_on_crouch_and_first_hit true true false
      { progress := .NotFalling } { progress := .FallingThroughContinuous }
      { distance := 2, velocity := (0, 0, 0), output := none }
      { distance := 9, velocity := (1, 1, 1), output := none }
      { hits := [{ entity := 1, proximity := 2, normal := (0, 0, 1) }] }
      { hits := [{ entity := 1, proximity := 2, normal := (0, 0, 1) },
        { entity := 2, proximity := 0, normal := (0, 0, 0) }] } 1 7 rfl rfl⟩
